import Mathlib

/-!
Verification development for the acp-ui protocol bridge and session
orchestrator.  The definitions below are shallow embeddings of the
TypeScript sources:

* `src/lib/acp-bridge.ts` — the RPC multiplexer (`AcpClientBridge`):
  outbound request tracking (`sendRequest`), response correlation and the
  timeout / send-failure paths (`handleMessage`, the `setTimeout` callback
  and the `sendToAgent(...).catch` handler), inbound request dispatch
  (`handleRequest`), the permission arbitrator
  (`requestPermission` / `resolvePermission` / `cancelPermission`) and the
  line/limit slicing of `readTextFile`.
* `src/stores/session.ts` — the session orchestrator (`createSession`,
  `resumeSession`, `handleSessionUpdate`, `cancelConnection`).
* `src/stores/traffic.ts` — the bounded traffic recorder (`addEntry`,
  `togglePause`, `clear`).

JavaScript `Map`s keyed by request id are modelled as lists of keys (the
resolver and rejecter maps are always inserted into and deleted from
together in the source, so one presence list models both) or as
association lists.  In-place mutation of an object held both in a map and
in an array is modelled by functionally updating the corresponding entry.
Promise `resolve` / `reject` continuation invocations are modelled as an
append-only log, so that double invocations remain observable.
-/

namespace AcpUi

/-! ### RPC multiplexer state (acp-bridge.ts, lines 41-231) -/

/-- A raw invocation of a pending promise continuation: `resolve(result)`
or `reject(new Error(message))`. -/
inductive Settle where
  | resolved (result : String)
  | rejected (message : String)
deriving DecidableEq, Repr

/-- State of the outbound side of `AcpClientBridge`: ids present in
`messageResolvers`/`messageRejecters` (the source always inserts and
deletes the two maps in lockstep, so a single list of pending ids models
both), the `pendingMethods` map, the id counter, and a log of every raw
continuation invocation in execution order. -/
structure RpcState where
  pending : List Nat
  pendingMethods : List (Nat × String)
  nextRequestId : Nat
  invocations : List (Nat × Settle)
deriving DecidableEq, Repr

def RpcState.init : RpcState := ⟨[], [], 0, []⟩

/-- `sendRequest` (lines 186-231) up to its first suspension: allocate the
next id, record the method in `pendingMethods`, store the resolver and
rejecter.  Returns the allocated id and the new state. -/
def sendRequestStep (method : String) (s : RpcState) : Nat × RpcState :=
  let id := s.nextRequestId
  (id,
    { s with
      nextRequestId := id + 1
      pendingMethods := s.pendingMethods ++ [(id, method)]
      pending := s.pending ++ [id] })

/-- The response branch of `handleMessage` (lines 82-106): delete the id
from `pendingMethods` unconditionally, then, only if a resolver and
rejecter are still registered, delete them and invoke exactly one of the
two — `reject(new Error(error.message || "Unknown error"))` on a wire
error, `resolve(result)` otherwise. -/
def responseStep (id : Nat) (err : Option String) (result : String) (s : RpcState) : RpcState :=
  let s := { s with pendingMethods := s.pendingMethods.filter (fun p => p.1 ≠ id) }
  if id ∈ s.pending then
    { s with
      pending := s.pending.filter (· ≠ id)
      invocations := s.invocations ++
        [(id, match err with
              | some m => .rejected (if m = "" then "Unknown error" else m)
              | none => .resolved result)] }
  else s

/-- The 60-second `setTimeout` callback of `sendRequest` (lines 222-229):
guarded by `messageResolvers.has(id)`; on firing it deletes the entry and
rejects with a timeout error naming the method. -/
def timeoutStep (id : Nat) (method : String) (s : RpcState) : RpcState :=
  if id ∈ s.pending then
    { s with
      pending := s.pending.filter (· ≠ id)
      pendingMethods := s.pendingMethods.filter (fun p => p.1 ≠ id)
      invocations := s.invocations ++ [(id, .rejected ("Request timeout: " ++ method))] }
  else s

/-- The `sendToAgent(...).catch` handler of `sendRequest` (lines 214-219):
deletes the entry and rejects — with no guard on whether the entry is
still present. -/
def sendFailStep (id : Nat) (errMsg : String) (s : RpcState) : RpcState :=
  { s with
    pending := s.pending.filter (· ≠ id)
    pendingMethods := s.pendingMethods.filter (fun p => p.1 ≠ id)
    invocations := s.invocations ++ [(id, .rejected errMsg)] }

/-- The three asynchronous events that can fire for one outbound request:
its matching response arriving, its timeout firing, its send failing. -/
inductive Ev where
  | resp
  | tmo
  | sfail
deriving DecidableEq, Repr, Fintype

/-- Dispatch one event for the request with the given id. `method` is the
method captured by the timeout closure; `err`/`result` describe the
response frame; `errMsg` is the send failure. -/
def stepEv (id : Nat) (method : String) (err : Option String) (result : String)
    (errMsg : String) : Ev → RpcState → RpcState
  | .resp => responseStep id err result
  | .tmo => timeoutStep id method
  | .sfail => sendFailStep id errMsg

/-- Run an interleaving of events for a single request. -/
def runEvents (id : Nat) (method : String) (err : Option String) (result : String)
    (errMsg : String) (t : List Ev) (s : RpcState) : RpcState :=
  t.foldl (fun s e => stepEv id method err result errMsg e s) s

/-! ### Traffic recorder (src/stores/traffic.ts) -/

inductive TrafficDirection where
  | inbound
  | outbound
deriving DecidableEq, Repr

inductive TrafficType where
  | request
  | response
  | notif
deriving DecidableEq, Repr

/-- The caller-supplied part of a traffic entry (`Omit<TrafficEntry,
"id" | "timestamp">`). -/
structure TrafficEntryData where
  direction : TrafficDirection
  type : TrafficType
  method : String
  requestId : Option Nat
  payload : String
  error : Bool
deriving DecidableEq, Repr

/-- A recorded entry: the data plus the generated id and timestamp. -/
structure TrafficEntry extends TrafficEntryData where
  id : String
  timestamp : Nat
deriving DecidableEq, Repr

def MAX_ENTRIES : Nat := 500

structure TrafficState where
  entries : List TrafficEntry
  isPaused : Bool
deriving DecidableEq, Repr

def TrafficState.init : TrafficState := ⟨[], false⟩

/-- `addEntry` (traffic.ts lines 55-70): no-op while paused; otherwise
append the entry with a generated id and timestamp, then, if the list
exceeds `MAX_ENTRIES`, keep only the last `MAX_ENTRIES` entries
(`entries.slice(-MAX_ENTRIES)`). -/
def addEntry (genId : String) (now : Nat) (e : TrafficEntryData) (s : TrafficState) :
    TrafficState :=
  if s.isPaused then s
  else
    let newEntries := s.entries ++ [{ e with id := genId, timestamp := now }]
    { s with
      entries :=
        if MAX_ENTRIES < newEntries.length then
          newEntries.drop (newEntries.length - MAX_ENTRIES)
        else newEntries }

def togglePause (s : TrafficState) : TrafficState :=
  { s with isPaused := !s.isPaused }

def clearEntries (s : TrafficState) : TrafficState :=
  { s with entries := [] }

/-- Store actions relevant to the entry list. -/
inductive TrafficEv where
  | add (genId : String) (now : Nat) (e : TrafficEntryData)
  | togglePauseEv
  | clearEv
deriving Repr

def trafficStep : TrafficEv → TrafficState → TrafficState
  | .add g n e => addEntry g n e
  | .togglePauseEv => togglePause
  | .clearEv => clearEntries

def runTraffic (evs : List TrafficEv) : TrafficState :=
  evs.foldl (fun s e => trafficStep e s) TrafficState.init

/-! ### readTextFile line/limit slicing (acp-bridge.ts, lines 351-371) -/

/-- The line/limit post-processing of `readTextFile`: when either
parameter is given, split on newlines, compute `startLine` (JS truthiness:
`params.line ? params.line - 1 : 0`) and `endLine`
(`params.limit ? startLine + params.limit : lines.length`), slice and
re-join; otherwise return the content untouched. -/
def readTextFileRange (content : String) (line limit : Option Nat) : String :=
  if line.isSome || limit.isSome then
    let lines := content.splitOn "\n"
    let startLine := match line with
      | some l => if l = 0 then 0 else l - 1
      | none => 0
    let endLine := match limit with
      | some k => if k = 0 then lines.length else startLine + k
      | none => lines.length
    String.intercalate "\n" ((lines.take endLine).drop startLine)
  else content

/-! ### Conversation assembler (src/stores/session.ts, handleSessionUpdate) -/

inductive Role where
  | user
  | assistant
  | system
deriving DecidableEq, Repr

inductive ToolStatus where
  | pending
  | inProgress
  | completed
  | failed
deriving DecidableEq, Repr

/-- `ToolCallInfo` from `src/lib/types.ts`. Locations are kept as the list
of paths; `none` models the field being absent. -/
structure ToolCallInfo where
  toolCallId : String
  title : String
  kind : String
  status : ToolStatus
  locations : Option (List String)
deriving DecidableEq, Repr

/-- `ChatMessage` from `src/lib/types.ts`; `thought` and `toolCalls` are
optional fields that `handleSessionUpdate` sets dynamically. -/
structure ChatMessage where
  id : String
  role : Role
  content : String
  thought : Option String := none
  timestamp : Nat
  toolCalls : Option (List ToolCallInfo) := none
deriving DecidableEq, Repr

structure SlashCommand where
  name : String
  description : String
  hint : Option String
deriving DecidableEq, Repr

/-- A content block of a chunk notification: the code only inspects
whether `content.type === "text"`. -/
inductive ContentBlock where
  | text (text : String)
  | other
deriving DecidableEq, Repr

def ContentBlock.textOrEmpty : ContentBlock → String
  | .text t => t
  | .other => ""

/-- The `session/update` notification payloads dispatched on
`update.sessionUpdate` (session.ts lines 111-233).  Optional wire fields
are `Option`s. -/
inductive SessionUpdate where
  | userMessageChunk (content : ContentBlock)
  | agentMessageChunk (content : ContentBlock)
  | agentThoughtChunk (content : ContentBlock)
  | toolCall (toolCallId : String) (title : String) (kind : Option String)
      (status : Option ToolStatus) (locations : Option (List String))
  | toolCallUpdate (toolCallId : String) (status : Option ToolStatus) (title : Option String)
  | currentModeUpdate (modeId : Option String)
  | availableCommandsUpdate (cmds : List SlashCommand)
  | unrecognized
deriving DecidableEq, Repr

/-- The assembler-owned state: the transcript, the global tool-call map
(a JS `Map`, modelled as an association list in insertion order), the
current mode id and the advertised slash commands. -/
structure AssemblerState where
  messages : List ChatMessage
  toolCalls : List (String × ToolCallInfo)
  currentModeId : String
  availableCommands : List SlashCommand
deriving DecidableEq, Repr

/-- `Map.get` — the value stored at the key (first matching entry). -/
def mapGet (k : String) (m : List (String × ToolCallInfo)) : Option ToolCallInfo :=
  (m.find? (fun p => p.1 = k)).map (·.2)

/-- `Map.set` — replace the value at an existing key in place, else
append. -/
def mapSet (k : String) (v : ToolCallInfo) :
    List (String × ToolCallInfo) → List (String × ToolCallInfo)
  | [] => [(k, v)]
  | (k₁, v₁) :: rest => if k₁ = k then (k, v) :: rest else (k₁, v₁) :: mapSet k v rest

/-- Mutate the first element satisfying `p` in place (the JS
`list.find(...)` followed by field assignments). -/
def updateFirst (p : α → Bool) (f : α → α) : List α → List α
  | [] => []
  | x :: rest => if p x then f x :: rest else x :: updateFirst p f rest

/-- The field assignments of the `tool_call_update` branch:
`if (update.status) ... ; if (update.title) ...` — JS truthiness makes an
empty-string title fall through. -/
def applyTcFields (status : Option ToolStatus) (title : Option String)
    (tc : ToolCallInfo) : ToolCallInfo :=
  let tc := match status with
    | some s => { tc with status := s }
    | none => tc
  match title with
  | some t => if t = "" then tc else { tc with title := t }
  | none => tc

/-- The body of the message loop of the `tool_call_update` branch
(session.ts lines 200-208): in each message, the first embedded entry
matching the id (the JS `find`) has the carried fields applied in
place. -/
def tcuMessagesMap (tcId : String) (status : Option ToolStatus) (title : Option String)
    (m : ChatMessage) : ChatMessage :=
  match m.toolCalls with
  | some tcs =>
    { m with toolCalls := some (updateFirst (fun t => t.toolCallId = tcId)
        (applyTcFields status title) tcs) }
  | none => m

/-- The tool-call record built by the `tool_call` branch
(`update.kind || "other"`, `update.status || "pending"`). -/
def mkToolCall (toolCallId title : String) (kind : Option String)
    (status : Option ToolStatus) (locations : Option (List String)) : ToolCallInfo :=
  { toolCallId := toolCallId
    title := title
    kind := match kind with
      | some k => if k = "" then "other" else k
      | none => "other"
    status := status.getD .pending
    locations := locations }

/-- `handleSessionUpdate` (session.ts lines 111-233).  `freshId` and `now`
stand for `crypto.randomUUID()` and `Date.now()`.  Trailing-message
mutation is modelled as `dropLast ++ [modified]`. -/
def handleSessionUpdate (freshId : String) (now : Nat) (u : SessionUpdate)
    (st : AssemblerState) : AssemblerState :=
  match u with
  | .userMessageChunk c =>
    match st.messages.getLast? with
    | some last =>
      if last.role = .user then
        match c with
        | .text t =>
          { st with messages := st.messages.dropLast ++ [{ last with content := last.content ++ t }] }
        | .other => st
      else
        { st with messages := st.messages ++
            [{ id := freshId, role := .user, content := c.textOrEmpty, timestamp := now }] }
    | none =>
      { st with messages := st.messages ++
          [{ id := freshId, role := .user, content := c.textOrEmpty, timestamp := now }] }
  | .agentMessageChunk c =>
    match st.messages.getLast? with
    | some last =>
      if last.role = .assistant then
        match c with
        | .text t =>
          { st with messages := st.messages.dropLast ++ [{ last with content := last.content ++ t }] }
        | .other => st
      else
        { st with messages := st.messages ++
            [{ id := freshId, role := .assistant, content := c.textOrEmpty, timestamp := now,
               toolCalls := some [] }] }
    | none =>
      { st with messages := st.messages ++
          [{ id := freshId, role := .assistant, content := c.textOrEmpty, timestamp := now,
             toolCalls := some [] }] }
  | .agentThoughtChunk c =>
    match st.messages.getLast? with
    | some last =>
      if last.role = .assistant then
        match c with
        | .text t =>
          { st with messages := st.messages.dropLast ++
              [{ last with thought := some ((last.thought.getD "") ++ t) }] }
        | .other => st
      else
        { st with messages := st.messages ++
            [{ id := freshId, role := .assistant, content := "",
               thought := some c.textOrEmpty, timestamp := now, toolCalls := some [] }] }
    | none =>
      { st with messages := st.messages ++
          [{ id := freshId, role := .assistant, content := "",
             thought := some c.textOrEmpty, timestamp := now, toolCalls := some [] }] }
  | .toolCall tcId title kind status locations =>
    let tc := mkToolCall tcId title kind status locations
    let st :=
      match st.messages.getLast? with
      | some last =>
        if last.role = Role.assistant then
          { st with messages := st.messages.dropLast ++
              [{ last with toolCalls := some ((last.toolCalls.getD []) ++ [tc]) }] }
        else st
      | none => st
    { st with toolCalls := mapSet tcId tc st.toolCalls }
  | .toolCallUpdate tcId status title =>
    match mapGet tcId st.toolCalls with
    | some _ =>
      { st with
        toolCalls := updateFirst (fun p => p.1 = tcId)
          (fun p => (p.1, applyTcFields status title p.2)) st.toolCalls
        messages := st.messages.map (tcuMessagesMap tcId status title) }
    | none => st
  | .currentModeUpdate modeId =>
    match modeId with
    | some mid => if mid = "" then st else { st with currentModeId := mid }
    | none => st
  | .availableCommandsUpdate cmds =>
    { st with availableCommands := cmds }
  | .unrecognized => st

/-! ### Inbound request handling (acp-bridge.ts, handleRequest) and the
permission arbitrator (requestPermission / resolvePermission /
cancelPermission) -/

/-- JSON-RPC ids are `number | string` in the source. -/
inductive ReqId where
  | num (n : Int)
  | str (s : String)
deriving DecidableEq, Repr

/-- The outcome delivered for a permission request:
`{outcome: {outcome: "selected", optionId}}` or
`{outcome: {outcome: "cancelled"}}`. -/
inductive PermOutcome where
  | selected (optionId : String)
  | cancelled
deriving DecidableEq, Repr

/-- Result payloads of the three client-side handlers. -/
inductive RpcResultVal where
  | readRes (content : String)
  | writeRes
  | permRes (outcome : PermOutcome)
deriving DecidableEq, Repr

/-- The single response frame `handleRequest` sends back:
`{jsonrpc, id, result}` or `{jsonrpc, id, error: {code, message}}`. -/
inductive ResponseFrame where
  | result (id : ReqId) (v : RpcResultVal)
  | error (id : ReqId) (code : Int) (message : String)
deriving DecidableEq, Repr

def ResponseFrame.frameId : ResponseFrame → ReqId
  | .result i _ => i
  | .error i _ _ => i

def knownClientMethods : List String :=
  ["fs/read_text_file", "fs/write_text_file", "session/request_permission"]

/-- The try/switch/catch body of `handleRequest` (lines 141-157). The
outcome of each awaited handler is passed in as an `Except` whose error
is the thrown message; the default case yields −32601 and a thrown
handler −32603, exactly as in the source. -/
def handleRequestCore (method : String) (readOutcome : Except String String)
    (writeOutcome : Except String Unit) (permOutcome : Except String PermOutcome) :
    Except (Int × String) RpcResultVal :=
  if method = "fs/read_text_file" then
    match readOutcome with
    | .ok c => .ok (.readRes c)
    | .error m => .error (-32603, m)
  else if method = "fs/write_text_file" then
    match writeOutcome with
    | .ok _ => .ok .writeRes
    | .error m => .error (-32603, m)
  else if method = "session/request_permission" then
    match permOutcome with
    | .ok o => .ok (.permRes o)
    | .error m => .error (-32603, m)
  else .error (-32601, "Method not found: " ++ method)

/-- `handleRequest` (lines 137-176): run the dispatch and send back the
one response frame built from its outcome. -/
def handleRequest (id : ReqId) (method : String) (readOutcome : Except String String)
    (writeOutcome : Except String Unit) (permOutcome : Except String PermOutcome) :
    ResponseFrame :=
  match handleRequestCore method readOutcome writeOutcome permOutcome with
  | .ok v => .result id v
  | .error (c, m) => .error id c m

/-- Classification of an inbound frame by `handleMessage` (lines 82-131):
a response has an id and no method; a request has both; a notification has
a truthy method and no id; anything else is dropped. -/
inductive FrameKind where
  | response
  | request
  | notif
  | dropped
deriving DecidableEq, Repr

def classifyFrame (id : Option ReqId) (method : Option String) : FrameKind :=
  if id.isSome && method.isNone then .response
  else if id.isSome && method.isSome then .request
  else if id.isNone && !((method.getD "").isEmpty) then .notif
  else .dropped

structure PermissionOption where
  kind : String
  name : String
  optionId : String
deriving DecidableEq, Repr

/-- The local `PermissionRequest` record stored in
`pendingPermissionRequest`. -/
structure PermissionRequestM where
  sessionId : String
  toolCall : ToolCallInfo
  options : List PermissionOption
deriving DecidableEq, Repr

/-- The wire shape of `session/request_permission` params: the tool-call
fields the agent may omit. -/
structure WireToolCall where
  toolCallId : String
  title : Option String
  kind : Option String
  status : Option ToolStatus
  locations : Option (List String)
deriving DecidableEq, Repr

/-- The record built by `requestPermission` (lines 290-304), with the
`?? ""` / `?? "other"` / `?? "pending"` defaults. -/
def mkPendingPermission (sessionId : String) (tc : WireToolCall)
    (options : List PermissionOption) : PermissionRequestM :=
  { sessionId := sessionId
    toolCall :=
      { toolCallId := tc.toolCallId
        title := tc.title.getD ""
        kind := tc.kind.getD "other"
        status := tc.status.getD .pending
        locations := tc.locations }
    options := options }

/-- Arbitrator state: the exposed pending request, whether
`permissionResolver` is non-null, and the log of outcomes delivered to the
suspended `requestPermission` promise. -/
structure ArbState where
  pendingPermissionRequest : Option PermissionRequestM
  resolverArmed : Bool
  delivered : List PermOutcome
deriving DecidableEq, Repr

def ArbState.init : ArbState := ⟨none, false, []⟩

/-- `requestPermission` (lines 286-307): publish the pending request and
arm the resolver; the wire response is deferred. -/
def requestPermissionStep (req : PermissionRequestM) (s : ArbState) : ArbState :=
  { s with pendingPermissionRequest := some req, resolverArmed := true }

/-- `resolvePermission` (lines 309-320): only if a resolver is armed,
deliver the selected outcome and clear both slots. -/
def resolvePermissionStep (optionId : String) (s : ArbState) : ArbState :=
  if s.resolverArmed then
    { pendingPermissionRequest := none, resolverArmed := false
      delivered := s.delivered ++ [.selected optionId] }
  else s

/-- `cancelPermission` (lines 322-332). -/
def cancelPermissionStep (s : ArbState) : ArbState :=
  if s.resolverArmed then
    { pendingPermissionRequest := none, resolverArmed := false
      delivered := s.delivered ++ [.cancelled] }
  else s

/-- One human decision attempt: `some optionId` is a `resolvePermission`
call, `none` a `cancelPermission` call. -/
def permDecisionStep (d : Option String) (s : ArbState) : ArbState :=
  match d with
  | some optId => resolvePermissionStep optId s
  | none => cancelPermissionStep s

def runPermDecisions (ds : List (Option String)) (s : ArbState) : ArbState :=
  ds.foldl (fun s d => permDecisionStep d s) s

/-! ### Session orchestrator (src/stores/session.ts, createSession and
resumeSession) -/

/-- JS `String.prototype.includes`. -/
def strIncludes (s pat : String) : Bool := decide (pat.data <:+: s.data)

/-- JS `String.prototype.toLowerCase` (character-wise lowering, as
`String.toLower` performs). -/
def strToLower (s : String) : String := ⟨s.data.map Char.toLower⟩

/-- The authentication-required detection of `createSession` /
`resumeSession` (session.ts lines 366-367 and 526-527):
`errorMessage.toLowerCase().includes("authentication required") ||
errorMessage.includes("-32000")`. -/
def isAuthRequired (errorMessage : String) : Bool :=
  strIncludes (strToLower errorMessage) "authentication required" ||
    strIncludes errorMessage "-32000"

structure SavedSession where
  id : String
  agentName : String
  sessionId : String
  title : String
  lastUpdated : Nat
  cwd : String
  supportsLoadSession : Bool
deriving DecidableEq, Repr

structure SessionMode where
  id : String
  name : String
  description : Option String
deriving DecidableEq, Repr

structure ModelInfo where
  modelId : String
  name : String
  description : Option String
deriving DecidableEq, Repr

/-- The `modes` part of a session/new response (absent lists already
defaulted to `[]`, absent current id to `""`, as the `|| []` / `|| ""`
in the source produce). -/
structure ModesInfo where
  availableModes : List SessionMode
  currentModeId : String
deriving DecidableEq, Repr

structure ModelsInfo where
  availableModels : List ModelInfo
  currentModelId : String
deriving DecidableEq, Repr

/-- A `session/new` response. -/
structure SessResp where
  sessionId : String
  modes : Option ModesInfo
  models : Option ModelsInfo
deriving DecidableEq, Repr

/-- The parts of an `initialize` response the orchestrator reads:
`agentCapabilities.loadSession ?? false` and `authMethods || []`. -/
structure InitRespM where
  loadSession : Bool
  authMethods : List String
deriving DecidableEq, Repr

/-- The session store refs touched by `createSession`/`resumeSession`.
`clientAlive` models `acpClient ≠ null`. -/
structure SessionStoreState where
  savedSessions : List SavedSession
  currentSession : Option SavedSession
  messages : List ChatMessage
  toolCalls : List (String × ToolCallInfo)
  isConnected : Bool
  isLoading : Bool
  isConnecting : Bool
  error : Option String
  availableModes : List SessionMode
  currentModeId : String
  availableModels : List ModelInfo
  currentModelId : String
  clientAlive : Bool
deriving DecidableEq, Repr

/-- Outcomes of the awaited steps of one `createSession` run, plus the
read trace of the `connectionAborted` flag.  `saveStore` is the outcome
of the awaited `saveSessionsToStore()` call (session.ts line 414), which
can reject like any other awaited step.  `abortFrom = some k` means
the single-shot flag is set by the time of its k-th read (reads are
numbered in source order: after spawn, after client creation, twice after
initialize, at the auth-method guard, after authenticate); `none` means
cancellation is never requested. -/
structure CreateEnv where
  spawn : Except String Unit
  initResult : Except String InitRespM
  firstNew : Except String SessResp
  chosenMethod : Option String
  authResult : Except String Unit
  secondNew : Except String SessResp
  saveStore : Except String Unit
  abortFrom : Option Nat
  freshUuid : String
  now : Nat
  titleText : String
deriving Repr

/-- Value of the `connectionAborted` flag at its i-th read. -/
def abortAt (abortFrom : Option Nat) (i : Nat) : Bool :=
  match abortFrom with
  | some k => decide (k ≤ i)
  | none => false

/-- Result of a `createSession`/`resumeSession` run: the single
resolution or rejection seen by the caller, the final store state, and
the outbound ACP requests issued, in order. -/
structure SessionOpResult where
  outcome : Except String Unit
  state : SessionStoreState
  sent : List String
deriving Repr

/-- The catch/finally exit of `createSession` (lines 449-468): record the
error, null out `acpClient`, drop the loading flags, rethrow. -/
def failCreate (e : String) (st : SessionStoreState) (sent : List String) : SessionOpResult :=
  { outcome := .error e
    state := { st with error := some e, clientAlive := false,
                       isLoading := false, isConnecting := false }
    sent := sent }

/-- The session record built by the success tail of `createSession`
(lines 401-410). -/
def newSavedSession (env : CreateEnv) (agentName cwd : String)
    (supportsLoadSession : Bool) (resp : SessResp) : SavedSession :=
  { id := env.freshUuid, agentName := agentName, sessionId := resp.sessionId
    title := env.titleText, lastUpdated := env.now, cwd := cwd
    supportsLoadSession := supportsLoadSession }

/-- The success tail of `createSession` (lines 401-447): set the current
session and append it to the saved list (lines 412-413), then await
`saveSessionsToStore()` (line 414) — a rejection there throws to the
catch with the session already populated and the list already extended —
and only after a successful save raise the connected flag, reset the
transcript and record modes and models (absent mode or model sets reset
the respective fields). -/
def establishCreate (env : CreateEnv) (agentName cwd : String) (supportsLoadSession : Bool)
    (resp : SessResp) (st : SessionStoreState) (sent : List String) : SessionOpResult :=
  let st := { st with
    currentSession := some (newSavedSession env agentName cwd supportsLoadSession resp)
    savedSessions :=
      st.savedSessions ++ [newSavedSession env agentName cwd supportsLoadSession resp] }
  match env.saveStore with
  | .error e => failCreate e st sent
  | .ok _ =>
    { outcome := .ok ()
      state := { st with
        isConnected := true
        messages := []
        toolCalls := []
        availableModes := match resp.modes with
          | some ms => ms.availableModes
          | none => []
        currentModeId := match resp.modes with
          | some ms => ms.currentModeId
          | none => ""
        availableModels := match resp.models with
          | some ms => ms.availableModels
          | none => []
        currentModelId := match resp.models with
          | some ms => ms.currentModelId
          | none => ""
        isLoading := false
        isConnecting := false }
      sent := sent }

/-- `createSession` (session.ts lines 265-469), with every awaited step
resolved from `env` and every read of `connectionAborted` numbered in
source order. -/
def createSessionM (env : CreateEnv) (agentName cwd : String) (st0 : SessionStoreState) :
    SessionOpResult :=
  let st := { st0 with isLoading := true, isConnecting := true, error := none }
  match env.spawn with
  | .error e => failCreate e st []
  | .ok _ =>
    if abortAt env.abortFrom 0 then failCreate "Connection cancelled" st []
    else
      let st := { st with clientAlive := true }
      if abortAt env.abortFrom 1 then failCreate "Connection cancelled" st []
      else
        match env.initResult with
        | .error e => failCreate e st ["initialize"]
        | .ok initResp =>
          if abortAt env.abortFrom 2 then failCreate "Connection cancelled" st ["initialize"]
          else if abortAt env.abortFrom 3 then failCreate "Connection cancelled" st ["initialize"]
          else
            match env.firstNew with
            | .ok resp =>
              establishCreate env agentName cwd initResp.loadSession resp st
                ["initialize", "session/new"]
            | .error msg =>
              if isAuthRequired msg && decide (0 < initResp.authMethods.length) then
                match env.chosenMethod with
                | none =>
                  failCreate "Authentication cancelled by user" st ["initialize", "session/new"]
                | some _ =>
                  if abortAt env.abortFrom 4 then
                    failCreate "Authentication cancelled by user" st ["initialize", "session/new"]
                  else
                    match env.authResult with
                    | .error e => failCreate e st ["initialize", "session/new", "authenticate"]
                    | .ok _ =>
                      if abortAt env.abortFrom 5 then
                        failCreate "Connection cancelled" st
                          ["initialize", "session/new", "authenticate"]
                      else
                        match env.secondNew with
                        | .error e =>
                          failCreate e st
                            ["initialize", "session/new", "authenticate", "session/new"]
                        | .ok resp =>
                          establishCreate env agentName cwd initResp.loadSession resp st
                            ["initialize", "session/new", "authenticate", "session/new"]
              else failCreate msg st ["initialize", "session/new"]

/-- Outcomes of the awaited steps of one `resumeSession` run.
`saveStore` is the outcome of the awaited `saveSessionsToStore()` call
(session.ts line 566).  `abortFrom` is carried for comparability with
`createSessionM`; the source of `resumeSession` never reads
`connectionAborted`, and accordingly no definition below consumes this
field. -/
structure ResumeEnv where
  spawn : Except String Unit
  initResult : Except String InitRespM
  firstLoad : Except String Unit
  chosenMethod : Option String
  authResult : Except String Unit
  secondLoad : Except String Unit
  saveStore : Except String Unit
  abortFrom : Option Nat
  now : Nat
deriving Repr

/-- The catch/finally exit of `resumeSession` (lines 568-576): record the
error and drop `isLoading`; unlike `createSession` it does not null out
the client. -/
def failResume (e : String) (st : SessionStoreState) (sent : List String) : SessionOpResult :=
  { outcome := .error e
    state := { st with error := some e, isLoading := false }
    sent := sent }

/-- The success tail of `resumeSession` (lines 557-566): set the current
session and raise the connected flag, mutate the shared saved session's
`lastUpdated` (the object is shared with the `savedSessions` list, so the
mutation is visible both in `currentSession` and there), then await
`saveSessionsToStore()` (line 566) — a rejection there throws to the
catch with the session already set and the connected flag already
raised. -/
def resumeEstablish (env : ResumeEnv) (saved : SavedSession) (st : SessionStoreState)
    (sent : List String) : SessionOpResult :=
  let st := { st with
    currentSession := some { saved with lastUpdated := env.now }
    isConnected := true
    savedSessions := st.savedSessions.map (fun s =>
      if s.id = saved.id then { s with lastUpdated := env.now } else s) }
  match env.saveStore with
  | .error e => failResume e st sent
  | .ok _ =>
    { outcome := .ok ()
      state := { st with isLoading := false }
      sent := sent }

/-- `resumeSession` (session.ts lines 472-577).  The transcript is
cleared before `session/load` is issued (lines 512-514), and no
cancellation checks appear anywhere in the body. -/
def resumeSessionM (env : ResumeEnv) (saved : SavedSession) (st0 : SessionStoreState) :
    SessionOpResult :=
  let st := { st0 with isLoading := true, error := none }
  match env.spawn with
  | .error e => failResume e st []
  | .ok _ =>
    let st := { st with clientAlive := true }
    match env.initResult with
    | .error e => failResume e st ["initialize"]
    | .ok initResp =>
      let st := { st with messages := [], toolCalls := [] }
      match env.firstLoad with
      | .ok _ => resumeEstablish env saved st ["initialize", "session/load"]
      | .error msg =>
        if isAuthRequired msg && decide (0 < initResp.authMethods.length) then
          match env.chosenMethod with
          | none =>
            failResume "Authentication cancelled by user" st ["initialize", "session/load"]
          | some _ =>
            match env.authResult with
            | .error e => failResume e st ["initialize", "session/load", "authenticate"]
            | .ok _ =>
              match env.secondLoad with
              | .error e =>
                failResume e st ["initialize", "session/load", "authenticate", "session/load"]
              | .ok _ =>
                resumeEstablish env saved st
                  ["initialize", "session/load", "authenticate", "session/load"]
        else failResume msg st ["initialize", "session/load"]

/-- One outbound request (id 0) followed by an interleaving of its
response, timeout and send-failure events. -/
def singleCallRun (method : String) (err : Option String) (res errMsg : String)
    (t : List Ev) : RpcState :=
  runEvents 0 method err res errMsg t (sendRequestStep method RpcState.init).2

/-- A concrete traffic entry payload used in witnesses. -/
def sampleEntryData : TrafficEntryData :=
  { direction := .inbound, type := .request, method := "initialize"
    requestId := some 0, payload := "p", error := false }

/-- The assembler state with an empty transcript. -/
def emptyAssembler : AssemblerState := ⟨[], [], "", []⟩

/-- The session store state before any connection. -/
def emptyStore : SessionStoreState :=
  { savedSessions := [], currentSession := none, messages := [], toolCalls := []
    isConnected := false, isLoading := false, isConnecting := false, error := none
    availableModes := [], currentModeId := "", availableModels := [], currentModelId := ""
    clientAlive := false }

/-- A concrete resumable saved session. -/
def sampleSaved : SavedSession :=
  { id := "local-1", agentName := "copilot", sessionId := "sess-1", title := "T"
    lastUpdated := 5, cwd := "/w", supportsLoadSession := true }

/-- A concrete pre-existing transcript message. -/
def sampleMessage : ChatMessage :=
  { id := "m0", role := .user, content := "old", timestamp := 1 }

/-- A resume run during which cancellation is requested from the very
start (`abortFrom = some 0`) while every protocol step succeeds. -/
def abortedResumeEnv : ResumeEnv :=
  { spawn := .ok (), initResult := .ok ⟨true, []⟩, firstLoad := .ok ()
    chosenMethod := none, authResult := .ok (), secondLoad := .ok ()
    saveStore := .ok (), abortFrom := some 0, now := 9 }

/-- A resume run whose session/load fails with a non-auth error. -/
def failingResumeEnv : ResumeEnv :=
  { spawn := .ok (), initResult := .ok ⟨true, []⟩, firstLoad := .error "load failed"
    chosenMethod := none, authResult := .ok (), secondLoad := .ok ()
    saveStore := .ok (), abortFrom := none, now := 9 }

/-- A store state holding a non-empty transcript. -/
def storeWithTranscript : SessionStoreState :=
  { emptyStore with messages := [sampleMessage] }

/-- A create run that hits the auth-required error, authenticates and
retries successfully. -/
def authRetryCreateEnv : CreateEnv :=
  { spawn := .ok (), initResult := .ok ⟨false, ["oauth-device"]⟩
    firstNew := .error "Authentication required", chosenMethod := some "oauth-device"
    authResult := .ok (), secondNew := .ok ⟨"sess-2", none, none⟩
    saveStore := .ok (), abortFrom := none, freshUuid := "uuid-c4", now := 3
    titleText := "Session now" }

/-- A create run cancelled right after the handshake (`abortFrom = some 2`
marks the first check after initialize as the one that sees the flag). -/
def abortedCreateEnv : CreateEnv :=
  { spawn := .ok (), initResult := .ok ⟨false, []⟩
    firstNew := .ok ⟨"sess-3", none, none⟩, chosenMethod := none
    authResult := .ok (), secondNew := .ok ⟨"sess-3", none, none⟩
    saveStore := .ok (), abortFrom := some 2, freshUuid := "uuid-c5", now := 4
    titleText := "Session now" }

/-- A create run whose agent spawn fails. -/
def spawnFailCreateEnv : CreateEnv :=
  { authRetryCreateEnv with spawn := .error "spawn failed" }

/-- The assembler state after an assistant chunk, two announcements of the
same tool-call id and one status update for it. -/
def duplicateToolCallTrace : AssemblerState :=
  handleSessionUpdate "u4" 3 (.toolCallUpdate "a" (some .completed) none)
    (handleSessionUpdate "u3" 2 (.toolCall "a" "t" none none none)
      (handleSessionUpdate "u2" 1 (.toolCall "a" "t" none none none)
        (handleSessionUpdate "u1" 0 (.agentMessageChunk (.text "x")) emptyAssembler)))

/-! ## Theorems -/

theorem slice_take_drop {α : Type _} (l : List α) (s k : Nat) :
    (l.take (s + k)).drop s = (l.drop s).take k := by
  rw [List.drop_take]
  congr 1
  omega

theorem slice_take_all {α : Type _} (l : List α) (s : Nat) :
    (l.take l.length).drop s = (l.drop s).take l.length := by
  rw [List.take_length]
  exact (List.take_of_length_le (by simp)).symm

/-- C10: for every fs/read_text_file request carrying a line and/or limit
parameter, the content is split on newlines, lines are taken starting at
zero-based index line − 1 (index 0 when line is absent or 0) and at most
limit of them (through end of file when limit is absent or 0), re-joined
with newlines; with neither parameter the content is returned unchanged. -/
theorem readTextFile_slices (content : String) (line limit : Option Nat) :
    readTextFileRange content line limit =
      if line.isSome || limit.isSome then
        String.intercalate "\n"
          (((content.splitOn "\n").drop
              (match line with | some l => l - 1 | none => 0)).take
            (match limit with
             | some k =>
               if k = 0 then (content.splitOn "\n").length else k
             | none => (content.splitOn "\n").length))
      else content := by
  have hstart : ∀ l : Nat, (if l = 0 then 0 else l - 1) = l - 1 := by
    intro l; cases l <;> simp
  cases line with
  | none =>
    cases limit with
    | none => rfl
    | some k =>
      by_cases hk : k = 0
      · subst hk
        simp only [readTextFileRange, Option.isSome_none, Option.isSome_some, Bool.or_true,
          if_true, if_pos rfl, List.drop_zero]
      · simp only [readTextFileRange, Option.isSome_none, Option.isSome_some, Bool.or_true,
          if_true, if_neg hk, List.drop_zero]
        rw [show (0 : Nat) + k = k from Nat.zero_add k]
  | some l =>
    cases limit with
    | none =>
      simp only [readTextFileRange, Option.isSome_some, Bool.true_or, if_true]
      rw [hstart, slice_take_all]
    | some k =>
      by_cases hk : k = 0
      · subst hk
        simp only [readTextFileRange, Option.isSome_some, Bool.true_or, if_true, if_pos rfl]
        rw [hstart, slice_take_all]
      · simp only [readTextFileRange, Option.isSome_some, Bool.true_or, if_true, if_neg hk]
        rw [hstart, slice_take_drop]

theorem trafficStep_bounded (ev : TrafficEv) (s : TrafficState)
    (h : s.entries.length ≤ MAX_ENTRIES) :
    (trafficStep ev s).entries.length ≤ MAX_ENTRIES := by
  cases ev with
  | add g n e =>
    simp only [trafficStep, addEntry]
    split
    · exact h
    · split
      · rename_i hgt
        simp only [List.length_drop, List.length_append, List.length_cons,
          List.length_nil] at hgt ⊢
        omega
      · rename_i hle
        simp only [List.length_append, List.length_cons, List.length_nil] at hle ⊢
        omega
  | togglePauseEv => simpa [trafficStep, togglePause] using h
  | clearEv => simp [trafficStep, clearEntries]

theorem runTraffic_fold_bounded (evs : List TrafficEv) :
    ∀ s : TrafficState, s.entries.length ≤ MAX_ENTRIES →
      (evs.foldl (fun s e => trafficStep e s) s).entries.length ≤ MAX_ENTRIES := by
  induction evs with
  | nil => exact fun _ h => h
  | cons e evs ih => exact fun s h => ih _ (trafficStep_bounded e s h)

/-- C9: the traffic recorder never holds more than 500 entries after any
sequence of store actions; while paused, addEntry is a no-op; while
recording, the entry is appended with the generated id and timestamp and
the oldest entries are evicted first, keeping the most recent entries in
order. -/
theorem trafficRecorder_bounded :
    (∀ evs : List TrafficEv, (runTraffic evs).entries.length ≤ MAX_ENTRIES) ∧
    (∀ (genId : String) (now : Nat) (e : TrafficEntryData) (s : TrafficState),
      s.isPaused = true → addEntry genId now e s = s) ∧
    (∀ (genId : String) (now : Nat) (e : TrafficEntryData) (s : TrafficState),
      s.isPaused = false → s.entries.length ≤ MAX_ENTRIES →
      (addEntry genId now e s).entries =
        s.entries.drop (s.entries.length + 1 - MAX_ENTRIES) ++
          [{ e with id := genId, timestamp := now }]) := by
  refine ⟨fun evs => runTraffic_fold_bounded evs _ (by simp [TrafficState.init]), ?_, ?_⟩
  · intro genId now e s hp
    simp [addEntry, hp]
  · intro genId now e s hp hlen
    simp only [addEntry, hp, Bool.false_eq_true, if_false]
    split
    · rename_i hgt
      simp only [List.length_append, List.length_cons, List.length_nil, MAX_ENTRIES] at hgt hlen
      rw [show (s.entries ++ [({ e with id := genId, timestamp := now } : TrafficEntry)]).length
            = s.entries.length + 1 by simp,
        show MAX_ENTRIES = 500 from rfl,
        List.drop_append_of_le_length (by omega)]
    · rename_i hle
      simp only [List.length_append, List.length_cons, List.length_nil] at hle
      have h0 : s.entries.length + 1 - MAX_ENTRIES = 0 := by omega
      rw [h0, List.drop_zero]

/-- Witness for C9 at a concrete state: recording unpaused from one entry
below an empty buffer appends the stamped entry without eviction. -/
theorem trafficRecorder_bounded_witness :
    (⟨[], false⟩ : TrafficState).isPaused = false ∧
    ([] : List TrafficEntry).length ≤ MAX_ENTRIES ∧
    (addEntry "uuid-1" 7 sampleEntryData ⟨[], false⟩).entries =
      [{ sampleEntryData with id := "uuid-1", timestamp := 7 }] := by
  refine ⟨rfl, by simp, ?_⟩
  have h := trafficRecorder_bounded.2.2 "uuid-1" 7 sampleEntryData ⟨[], false⟩ rfl (by simp)
  simpa using h

/-- C3: the timeout path rejects exactly the timed-out call with a
timeout error and removes its entry without touching any other pending
call; concretely, when call A (id 0, sent first) goes unanswered and call
B (id 1, sent second) receives a valid response before A's deadline, B is
resolved with its result and A is still rejected with the timeout error. -/
theorem timeout_independence :
    (∀ (s : RpcState) (id idOther : Nat) (method : String), idOther ≠ id →
      ((idOther ∈ (timeoutStep id method s).pending) ↔ idOther ∈ s.pending) ∧
      ((timeoutStep id method s).invocations.filter (fun p => p.1 == idOther) =
        s.invocations.filter (fun p => p.1 == idOther))) ∧
    (∀ mA mB resB : String,
      (timeoutStep 0 mA (responseStep 1 none resB
          (sendRequestStep mB (sendRequestStep mA RpcState.init).2).2)).invocations =
        [(1, .resolved resB), (0, .rejected ("Request timeout: " ++ mA))] ∧
      (timeoutStep 0 mA (responseStep 1 none resB
          (sendRequestStep mB (sendRequestStep mA RpcState.init).2).2)).pending = []) := by
  constructor
  · intro s id idOther method hne
    simp only [timeoutStep]
    split
    · constructor
      · simp [List.mem_filter, hne]
      · rw [List.filter_append]
        have hb : (id == idOther) = false := by
          simp [Ne.symm hne]
        simp [hb]
    · exact ⟨Iff.rfl, rfl⟩
  · intro mA mB resB
    refine ⟨?_, ?_⟩ <;>
      simp [sendRequestStep, RpcState.init, responseStep, timeoutStep]

/-- Witness for C3 at concrete arguments. -/
theorem timeout_independence_witness :
    (2 : Nat) ≠ 1 ∧
    ((2 ∈ (timeoutStep 1 "session/new" ⟨[1, 2], [], 3, []⟩).pending) ↔
      2 ∈ ([1, 2] : List Nat)) := by
  refine ⟨by decide, ?_⟩
  have h := (timeout_independence.1 ⟨[1, 2], [], 3, []⟩ 1 2 "session/new" (by decide)).1
  simpa using h

/-- C1 counterexample: for the single request id 0, the interleaving in
which the 60-second timeout fires and the send-failure callback then runs
invokes the reject continuation twice — the send-failure path deletes the
entry and rejects without checking whether the entry is still present. -/
theorem pendingCall_double_invocation :
    (singleCallRun "initialize" none "res" "send failed" [Ev.tmo, Ev.sfail]).invocations =
      [(0, .rejected ("Request timeout: " ++ "initialize")), (0, .rejected "send failed")] ∧
    (singleCallRun "initialize" none "res" "send failed" [Ev.tmo, Ev.sfail]).invocations.length
      = 2 := by
  constructor <;> rfl

/-- C1 (amended): under every interleaving of the matching response and
the timeout alone, exactly one continuation is invoked exactly once; in
every nonempty interleaving of response, timeout and send failure at
least one and at most two invocations occur and the pending entry is gone
afterwards; a second invocation happens exactly when the send-failure
callback runs after another event has already fired (the promise it
rejects is then already settled). -/
theorem pendingCall_at_most_once (method res errMsg : String) (err : Option String)
    (t : List Ev) (hnd : t.Nodup) (hne : t ≠ []) :
    (Ev.sfail ∉ t →
      (singleCallRun method err res errMsg t).invocations.length = 1) ∧
    1 ≤ (singleCallRun method err res errMsg t).invocations.length ∧
    (singleCallRun method err res errMsg t).invocations.length ≤ 2 ∧
    (singleCallRun method err res errMsg t).pending = [] ∧
    ((singleCallRun method err res errMsg t).invocations.length = 2 ↔
      (Ev.sfail ∈ t ∧ t.head? ≠ some Ev.sfail)) := by
  have hlen := hnd.length_le_card
  rw [show Fintype.card Ev = 3 from rfl] at hlen
  rcases t with _ | ⟨a, _ | ⟨b, _ | ⟨c, _ | ⟨d, t⟩⟩⟩⟩
  · exact absurd rfl hne
  · rcases a <;>
      refine ⟨?_, ?_, ?_, ?_, ?_⟩ <;>
        simp [singleCallRun, runEvents, stepEv, responseStep, timeoutStep, sendFailStep,
          sendRequestStep, RpcState.init]
  · rcases a <;> rcases b <;>
      first
        | exact absurd hnd (by decide)
        | (refine ⟨?_, ?_, ?_, ?_, ?_⟩ <;>
            simp [singleCallRun, runEvents, stepEv, responseStep, timeoutStep, sendFailStep,
              sendRequestStep, RpcState.init])
  · rcases a <;> rcases b <;> rcases c <;>
      first
        | exact absurd hnd (by decide)
        | (refine ⟨?_, ?_, ?_, ?_, ?_⟩ <;>
            simp [singleCallRun, runEvents, stepEv, responseStep, timeoutStep, sendFailStep,
              sendRequestStep, RpcState.init])
  · exfalso
    simp only [List.length_cons] at hlen
    omega

/-- Witness for C1 (amended) at the response-then-timeout interleaving. -/
theorem pendingCall_at_most_once_witness :
    (singleCallRun "session/new" none "ok" "boom" [Ev.resp, Ev.tmo]).invocations.length = 1 :=
  (pendingCall_at_most_once "session/new" "ok" "boom" none [Ev.resp, Ev.tmo]
    (by decide) (by decide)).1 (by decide)

/-- C7: a user or assistant text chunk processed in arrival order is
appended to the trailing transcript message when that message has the
same role, and otherwise a new message with that role and the chunk text
is appended; in particular same-role chunks "Hel" then "lo" on an empty
transcript yield a single message with content "Hello". -/
theorem chunk_concatenation :
    (∀ (st : AssemblerState) (freshId : String) (now : Nat) (t : String) (last : ChatMessage),
      st.messages.getLast? = some last → last.role = .user →
      (handleSessionUpdate freshId now (.userMessageChunk (.text t)) st).messages =
        st.messages.dropLast ++ [{ last with content := last.content ++ t }]) ∧
    (∀ (st : AssemblerState) (freshId : String) (now : Nat) (t : String),
      (match st.messages.getLast? with
       | some last => last.role ≠ Role.user
       | none => True) →
      (handleSessionUpdate freshId now (.userMessageChunk (.text t)) st).messages =
        st.messages ++ [{ id := freshId, role := .user, content := t, timestamp := now }]) ∧
    (∀ (st : AssemblerState) (freshId : String) (now : Nat) (t : String) (last : ChatMessage),
      st.messages.getLast? = some last → last.role = .assistant →
      (handleSessionUpdate freshId now (.agentMessageChunk (.text t)) st).messages =
        st.messages.dropLast ++ [{ last with content := last.content ++ t }]) ∧
    (∀ (st : AssemblerState) (freshId : String) (now : Nat) (t : String),
      (match st.messages.getLast? with
       | some last => last.role ≠ Role.assistant
       | none => True) →
      (handleSessionUpdate freshId now (.agentMessageChunk (.text t)) st).messages =
        st.messages ++ [{ id := freshId, role := .assistant, content := t, timestamp := now,
                          toolCalls := some [] }]) ∧
    ((handleSessionUpdate "u2" 1 (.agentMessageChunk (.text "lo"))
        (handleSessionUpdate "u1" 0 (.agentMessageChunk (.text "Hel")) emptyAssembler)).messages.map
      (fun m => (m.role, m.content)) = [(Role.assistant, "Hello")]) := by
  refine ⟨?_, ?_, ?_, ?_, ?_⟩
  · intro st freshId now t last hlast hrole
    simp [handleSessionUpdate, hlast, hrole]
  · intro st freshId now t hcond
    cases hlast : st.messages.getLast? with
    | none => simp [handleSessionUpdate, ContentBlock.textOrEmpty, hlast]
    | some last =>
      rw [hlast] at hcond
      simp [handleSessionUpdate, ContentBlock.textOrEmpty, hlast, hcond]
  · intro st freshId now t last hlast hrole
    simp [handleSessionUpdate, hlast, hrole]
  · intro st freshId now t hcond
    cases hlast : st.messages.getLast? with
    | none => simp [handleSessionUpdate, ContentBlock.textOrEmpty, hlast]
    | some last =>
      rw [hlast] at hcond
      simp [handleSessionUpdate, ContentBlock.textOrEmpty, hlast, hcond]
  · rfl

/-- Witness for C7 at a concrete one-message transcript. -/
theorem chunk_concatenation_witness :
    (handleSessionUpdate "w1" 5 (.userMessageChunk (.text "b"))
        ⟨[{ id := "m0", role := .user, content := "a", timestamp := 0 }], [], "", []⟩).messages =
      [{ id := "m0", role := .user, content := "a" ++ "b", timestamp := 0 }] := by
  have h := chunk_concatenation.1
    ⟨[{ id := "m0", role := .user, content := "a", timestamp := 0 }], [], "", []⟩
    "w1" 5 "b" { id := "m0", role := .user, content := "a", timestamp := 0 } rfl rfl
  simpa using h

theorem mapGet_updateFirst (m : List (String × ToolCallInfo)) (k : String)
    (g : ToolCallInfo → ToolCallInfo) :
    mapGet k (updateFirst (fun p => p.1 = k) (fun p => (p.1, g p.2)) m) =
      (mapGet k m).map g := by
  induction m with
  | nil => rfl
  | cons hd tl ih =>
    rcases hd with ⟨k₁, v₁⟩
    by_cases h : k₁ = k
    · subst h
      simp [updateFirst, mapGet]
    · have hd : (decide (k₁ = k)) = false := by simp [h]
      simp only [updateFirst, hd, Bool.false_eq_true, if_false]
      simp only [mapGet] at ih ⊢
      rw [List.find?_cons_of_neg, List.find?_cons_of_neg]
      · exact ih
      · simpa using h
      · simpa using h

theorem filter_nil_map_id {α : Type _} (p : α → Bool) (f : α → α) :
    ∀ l : List α, l.filter p = [] → l.map (fun x => if p x then f x else x) = l := by
  intro l
  induction l with
  | nil => intro _; rfl
  | cons x xs ih =>
    intro h
    rw [List.filter_cons] at h
    by_cases hx : p x
    · simp [hx] at h
    · simp only [hx, if_false] at h
      simp [hx, ih h]

theorem updateFirst_eq_map_of_unique {α : Type _} (p : α → Bool) (f : α → α) :
    ∀ l : List α, (l.filter p).length ≤ 1 →
      updateFirst p f l = l.map (fun x => if p x then f x else x) := by
  intro l
  induction l with
  | nil => intro _; rfl
  | cons x xs ih =>
    intro h
    rw [List.filter_cons] at h
    by_cases hx : p x
    · simp only [hx, if_true, List.length_cons] at h
      have hnil : xs.filter p = [] := by
        have : (xs.filter p).length = 0 := by omega
        exact List.length_eq_zero.mp this
      simp [updateFirst, hx, filter_nil_map_id p f xs hnil]
    · simp only [hx, if_false] at h
      simp [updateFirst, hx, ih h]

theorem updateFirst_idem {α : Type _} (p : α → Bool) (f : α → α)
    (hp : ∀ x, p x = true → p (f x) = true) (hf : ∀ x, f (f x) = f x) :
    ∀ l : List α, updateFirst p f (updateFirst p f l) = updateFirst p f l := by
  intro l
  induction l with
  | nil => rfl
  | cons x xs ih =>
    by_cases hx : p x
    · simp [updateFirst, hx, hp x hx, hf x]
    · simp [updateFirst, hx, ih]

theorem applyTcFields_idem (s : Option ToolStatus) (t : Option String) (tc : ToolCallInfo) :
    applyTcFields s t (applyTcFields s t tc) = applyTcFields s t tc := by
  rcases s with _ | s0 <;> rcases t with _ | t0 <;> simp only [applyTcFields] <;>
    try rfl
  all_goals by_cases h : t0 = "" <;> simp [h]

theorem applyTcFields_toolCallId (s : Option ToolStatus) (t : Option String)
    (tc : ToolCallInfo) : (applyTcFields s t tc).toolCallId = tc.toolCallId := by
  rcases s with _ | s0 <;> rcases t with _ | t0 <;> simp only [applyTcFields] <;>
    try rfl
  all_goals by_cases h : t0 = "" <;> simp [h]

theorem tcuMessagesMap_idem (tcId : String) (s : Option ToolStatus) (t : Option String)
    (m : ChatMessage) :
    tcuMessagesMap tcId s t (tcuMessagesMap tcId s t m) = tcuMessagesMap tcId s t m := by
  rcases m with ⟨mid, mrole, mcontent, mthought, mts, mtc⟩
  rcases mtc with _ | tcs
  · rfl
  · have huf : updateFirst (fun tc => tc.toolCallId = tcId) (applyTcFields s t)
        (updateFirst (fun tc => tc.toolCallId = tcId) (applyTcFields s t) tcs) =
        updateFirst (fun tc => tc.toolCallId = tcId) (applyTcFields s t) tcs :=
      updateFirst_idem _ _
        (fun x hx => by
          have h1 := applyTcFields_toolCallId s t x
          simpa [h1] using hx)
        (applyTcFields_idem s t) tcs
    simp only [tcuMessagesMap, huf]

theorem tcu_unknown (st : AssemblerState) (f : String) (n : Nat) (tcId : String)
    (s : Option ToolStatus) (t : Option String)
    (h : mapGet tcId st.toolCalls = none) :
    handleSessionUpdate f n (.toolCallUpdate tcId s t) st = st := by
  simp [handleSessionUpdate, h]

theorem tcu_mapGet (st : AssemblerState) (f : String) (n : Nat) (tcId : String)
    (s : Option ToolStatus) (t : Option String) (existing : ToolCallInfo)
    (h : mapGet tcId st.toolCalls = some existing) :
    mapGet tcId (handleSessionUpdate f n (.toolCallUpdate tcId s t) st).toolCalls =
      some (applyTcFields s t existing) := by
  simp only [handleSessionUpdate, h]
  rw [mapGet_updateFirst, h]
  rfl

/-- C8 counterexample: after an assistant chunk and two announcements of
the same tool-call id into the same assistant message, a status update
sets only the first embedded entry to completed; the second matching
embedded entry keeps its old pending status, although the global record
is updated. -/
theorem toolCallUpdate_first_match_only :
    duplicateToolCallTrace.messages.map
        (fun m => (m.toolCalls.getD []).map (·.status)) =
      [[ToolStatus.completed, ToolStatus.pending]] ∧
    mapGet "a" duplicateToolCallTrace.toolCalls =
      some ⟨"a", "t", "other", .completed, none⟩ := by
  constructor <;> rfl

/-- C8 (amended): a tool_call_update whose toolCallId is absent from the
global table leaves the entire state unchanged; when present, only the
carried fields (status and/or a non-empty title) are applied, the global
record is updated in place, and within each transcript message the first
embedded entry matching the id is updated — hence every matching entry
whenever no message embeds the same id twice; and applying the same
update twice yields the same state as applying it once. -/
theorem toolCallUpdate_amended :
    (∀ (st : AssemblerState) (f : String) (n : Nat) (tcId : String)
        (s : Option ToolStatus) (t : Option String),
      mapGet tcId st.toolCalls = none →
      handleSessionUpdate f n (.toolCallUpdate tcId s t) st = st) ∧
    (∀ (st : AssemblerState) (f : String) (n : Nat) (tcId : String)
        (s : Option ToolStatus) (t : Option String) (existing : ToolCallInfo),
      mapGet tcId st.toolCalls = some existing →
      mapGet tcId (handleSessionUpdate f n (.toolCallUpdate tcId s t) st).toolCalls =
        some (applyTcFields s t existing)) ∧
    (∀ (s : Option ToolStatus) (t : Option String) (tc : ToolCallInfo),
      (applyTcFields s none tc).title = tc.title ∧
      (applyTcFields none t tc).status = tc.status ∧
      (applyTcFields s t tc).toolCallId = tc.toolCallId ∧
      (applyTcFields s t tc).kind = tc.kind ∧
      (applyTcFields s t tc).locations = tc.locations ∧
      (∀ s₀, s = some s₀ → (applyTcFields s t tc).status = s₀) ∧
      (∀ t₀, t = some t₀ → t₀ ≠ "" → (applyTcFields s t tc).title = t₀)) ∧
    (∀ (st : AssemblerState) (f : String) (n : Nat) (tcId : String)
        (s : Option ToolStatus) (t : Option String) (existing : ToolCallInfo),
      mapGet tcId st.toolCalls = some existing →
      (∀ m ∈ st.messages, ∀ tcs, m.toolCalls = some tcs →
        (tcs.filter (fun tc => tc.toolCallId = tcId)).length ≤ 1) →
      (handleSessionUpdate f n (.toolCallUpdate tcId s t) st).messages =
        st.messages.map (fun m =>
          { m with toolCalls := m.toolCalls.map (fun tcs =>
              tcs.map (fun tc =>
                if tc.toolCallId = tcId then applyTcFields s t tc else tc)) })) ∧
    (∀ (st : AssemblerState) (f₁ f₂ : String) (n₁ n₂ : Nat) (tcId : String)
        (s : Option ToolStatus) (t : Option String),
      handleSessionUpdate f₂ n₂ (.toolCallUpdate tcId s t)
          (handleSessionUpdate f₁ n₁ (.toolCallUpdate tcId s t) st) =
        handleSessionUpdate f₁ n₁ (.toolCallUpdate tcId s t) st) := by
  refine ⟨tcu_unknown, tcu_mapGet, ?_, ?_, ?_⟩
  · intro s t tc
    refine ⟨?_, ?_, ?_, ?_, ?_, ?_, ?_⟩ <;>
      rcases s with _ | s₀ <;> rcases t with _ | t₀ <;>
        simp only [applyTcFields] <;>
          first
            | rfl
            | (intro s₁ hs₁
               try intro hne
               simp_all
               try (by_cases h : t₀ = "" <;> simp_all))
            | (by_cases h : t₀ = "" <;> simp [h])
  · intro st f n tcId s t existing hex huniq
    simp only [handleSessionUpdate, hex]
    apply List.map_congr_left
    intro m hm
    rcases m with ⟨mid, mrole, mcontent, mthought, mts, mtc⟩
    rcases mtc with _ | tcs
    · rfl
    · have h1 := huniq _ hm tcs rfl
      simp only [tcuMessagesMap]
      rw [updateFirst_eq_map_of_unique _ _ tcs h1]
      simp
  · intro st f₁ f₂ n₁ n₂ tcId s t
    cases h : mapGet tcId st.toolCalls with
    | none =>
      rw [tcu_unknown st f₁ n₁ tcId s t h, tcu_unknown st f₂ n₂ tcId s t h]
    | some ex =>
      have huf : updateFirst (fun p => p.1 = tcId)
          (fun p => (p.1, applyTcFields s t p.2))
          (updateFirst (fun p => p.1 = tcId)
            (fun p => (p.1, applyTcFields s t p.2)) st.toolCalls) =
          updateFirst (fun p => p.1 = tcId)
            (fun p => (p.1, applyTcFields s t p.2)) st.toolCalls :=
        updateFirst_idem
          (fun p : String × ToolCallInfo => p.1 = tcId)
          (fun p : String × ToolCallInfo => (p.1, applyTcFields s t p.2))
          (fun x hx => hx)
          (fun x => by
            show (x.1, applyTcFields s t (applyTcFields s t x.2)) = (x.1, applyTcFields s t x.2)
            rw [applyTcFields_idem]) st.toolCalls
      rcases st with ⟨msgs, tcm, mode, cmds⟩
      simp only [handleSessionUpdate, mapGet_updateFirst, h, Option.map_some'] at huf ⊢
      rw [huf, List.map_map]
      congr 1
      apply List.map_congr_left
      intro m _
      exact tcuMessagesMap_idem tcId s t m

/-- Witness for C8 (amended): an update for an id absent from an empty
table is a no-op. -/
theorem toolCallUpdate_amended_witness :
    handleSessionUpdate "w" 0 (.toolCallUpdate "zz" (some .completed) none) emptyAssembler =
      emptyAssembler :=
  toolCallUpdate_amended.1 emptyAssembler "w" 0 "zz" (some .completed) none rfl

theorem runPermDecisions_disarmed (ds : List (Option String)) :
    ∀ s : ArbState, s.resolverArmed = false → runPermDecisions ds s = s := by
  induction ds with
  | nil => intro s _; rfl
  | cons d ds ih =>
    intro s h
    have hstep : permDecisionStep d s = s := by
      cases d <;> simp [permDecisionStep, resolvePermissionStep, cancelPermissionStep, h]
    show List.foldl (fun s d => permDecisionStep d s) s (d :: ds) = s
    rw [List.foldl_cons, hstep]
    exact ih s h

/-- C2: an inbound frame with both an id and a method is classified as a
request; handleRequest answers it with exactly one response frame
carrying the same id — a ‑32601 method-not-found error for methods other
than the three client methods, a ‑32603 internal error carrying the
thrown message when the handler throws, and a success result otherwise —
and a session/request_permission response, deferred until the human
decision, is delivered exactly once: the first resolve/cancel call
delivers it and every later call is a no-op. -/
theorem inbound_request_single_response :
    (∀ (i : ReqId) (m : String), classifyFrame (some i) (some m) = .request) ∧
    (∀ (id : ReqId) (method : String) (ro : Except String String) (wo : Except String Unit)
        (po : Except String PermOutcome),
      (handleRequest id method ro wo po).frameId = id) ∧
    (∀ (id : ReqId) (method : String) (ro : Except String String) (wo : Except String Unit)
        (po : Except String PermOutcome),
      method ∉ knownClientMethods →
      handleRequest id method ro wo po =
        .error id (-32601) ("Method not found: " ++ method)) ∧
    (∀ (id : ReqId) (method : String) (em : String),
      method ∈ knownClientMethods →
      handleRequest id method (.error em) (.error em) (.error em) =
        .error id (-32603) em) ∧
    (∀ (id : ReqId) (c : String) (wo : Except String Unit) (po : Except String PermOutcome),
      handleRequest id "fs/read_text_file" (.ok c) wo po = .result id (.readRes c)) ∧
    (∀ (id : ReqId) (ro : Except String String) (po : Except String PermOutcome),
      handleRequest id "fs/write_text_file" ro (.ok ()) po = .result id .writeRes) ∧
    (∀ (id : ReqId) (ro : Except String String) (wo : Except String Unit) (o : PermOutcome),
      handleRequest id "session/request_permission" ro wo (.ok o) = .result id (.permRes o)) ∧
    (∀ (req : PermissionRequestM) (d : Option String) (ds : List (Option String)),
      (requestPermissionStep req ArbState.init).delivered = [] ∧
      (runPermDecisions (d :: ds) (requestPermissionStep req ArbState.init)).delivered =
        [match d with
         | some o => PermOutcome.selected o
         | none => PermOutcome.cancelled] ∧
      (runPermDecisions (d :: ds)
        (requestPermissionStep req ArbState.init)).pendingPermissionRequest = none) := by
  refine ⟨?_, ?_, ?_, ?_, ?_, ?_, ?_, ?_⟩
  · intro i m; rfl
  · intro id method ro wo po
    unfold handleRequest
    cases handleRequestCore method ro wo po with
    | ok v => rfl
    | error e => rcases e with ⟨c, m⟩; rfl
  · intro id method ro wo po h
    simp only [knownClientMethods, List.mem_cons, List.not_mem_nil, or_false, not_or] at h
    obtain ⟨h1, h2, h3⟩ := h
    simp [handleRequest, handleRequestCore, h1, h2, h3]
  · intro id method em h
    have h3 : method = "fs/read_text_file" ∨ method = "fs/write_text_file" ∨
        method = "session/request_permission" := by
      simpa [knownClientMethods] using h
    rcases h3 with h | h | h <;> subst h <;> rfl
  · intro id c wo po; rfl
  · intro id ro po; rfl
  · intro id ro wo o; rfl
  · intro req d ds
    have hfin : runPermDecisions (d :: ds) (requestPermissionStep req ArbState.init) =
        ⟨none, false,
          [match d with
           | some o => PermOutcome.selected o
           | none => PermOutcome.cancelled]⟩ := by
      have hstep : permDecisionStep d (requestPermissionStep req ArbState.init) =
          ⟨none, false,
            [match d with
             | some o => PermOutcome.selected o
             | none => PermOutcome.cancelled]⟩ := by
        cases d <;> rfl
      show List.foldl (fun s d => permDecisionStep d s)
          (requestPermissionStep req ArbState.init) (d :: ds) = _
      rw [List.foldl_cons, hstep]
      exact runPermDecisions_disarmed ds _ rfl
    exact ⟨rfl, by rw [hfin], by rw [hfin]⟩

/-- Witness for C2 at a concrete unknown method. -/
theorem inbound_request_single_response_witness :
    handleRequest (.num 7) "foo/bar" (.ok "x") (.ok ()) (.ok (.selected "o")) =
      .error (.num 7) (-32601) ("Method not found: " ++ "foo/bar") :=
  inbound_request_single_response.2.2.1 (.num 7) "foo/bar" (.ok "x") (.ok ())
    (.ok (.selected "o")) (by decide)

/-- C4: a session/new failure is classified as authentication-required
exactly when the error message contains "authentication required"
case-insensitively or contains "-32000" (both detections checked); in
that case, when at least one auth method was advertised at handshake and
the user chooses one, an authenticate request is issued and, on its
success, session/new is retried exactly once, the active session being
populated from the retried call's result; otherwise the error propagates
without any authenticate request. -/
theorem auth_required_retry :
    (∀ msg : String, isAuthRequired msg = true ↔
      ("authentication required".data <:+: (strToLower msg).data ∨
        "-32000".data <:+: msg.data)) ∧
    (∀ (env : CreateEnv) (a c : String) (st0 : SessionStoreState) (i : InitRespM)
        (msg mid : String) (resp : SessResp),
      env.abortFrom = none →
      env.spawn = .ok () →
      env.initResult = .ok i →
      i.authMethods ≠ [] →
      env.firstNew = .error msg →
      isAuthRequired msg = true →
      env.chosenMethod = some mid →
      env.authResult = .ok () →
      env.secondNew = .ok resp →
      env.saveStore = .ok () →
      (createSessionM env a c st0).outcome = .ok () ∧
      (createSessionM env a c st0).sent =
        ["initialize", "session/new", "authenticate", "session/new"] ∧
      ((createSessionM env a c st0).state.currentSession).map (fun s => s.sessionId) =
        some resp.sessionId ∧
      (createSessionM env a c st0).state.isConnected = true) ∧
    (∀ (env : CreateEnv) (a c : String) (st0 : SessionStoreState) (i : InitRespM) (msg : String),
      env.abortFrom = none →
      env.spawn = .ok () →
      env.initResult = .ok i →
      env.firstNew = .error msg →
      (isAuthRequired msg = false ∨ i.authMethods = []) →
      (createSessionM env a c st0).outcome = .error msg ∧
      (createSessionM env a c st0).sent = ["initialize", "session/new"]) := by
  refine ⟨?_, ?_, ?_⟩
  · intro msg
    simp [isAuthRequired, strIncludes]
  · intro env a c st0 i msg mid resp hab hsp hinit hne hfirst hauth hch hok hsecond hsave
    have hlen : 0 < i.authMethods.length := List.length_pos.mpr hne
    simp [createSessionM, hab, abortAt, hsp, hinit, hfirst, hauth, hlen, hch, hok, hsecond,
      hsave, establishCreate, newSavedSession]
  · intro env a c st0 i msg hab hsp hinit hfirst hdis
    rcases hdis with hfalse | hempty
    · simp [createSessionM, hab, abortAt, hsp, hinit, hfirst, hfalse, failCreate]
    · simp [createSessionM, hab, abortAt, hsp, hinit, hfirst, hempty, failCreate]

/-- Witness for C4 at a concrete auth-required run. -/
theorem auth_required_retry_witness :
    (createSessionM authRetryCreateEnv "copilot" "/w" emptyStore).outcome = .ok () ∧
    (createSessionM authRetryCreateEnv "copilot" "/w" emptyStore).sent =
      ["initialize", "session/new", "authenticate", "session/new"] ∧
    ((createSessionM authRetryCreateEnv "copilot" "/w" emptyStore).state.currentSession).map
      (fun s => s.sessionId) = some "sess-2" ∧
    (createSessionM authRetryCreateEnv "copilot" "/w" emptyStore).state.isConnected = true := by
  have h := auth_required_retry.2.1 authRetryCreateEnv "copilot" "/w" emptyStore
    ⟨false, ["oauth-device"]⟩ "Authentication required" "oauth-device" ⟨"sess-2", none, none⟩
    rfl rfl rfl (by decide) rfl (by decide) rfl rfl rfl rfl
  simpa using h

/-- C5 counterexample: with cancellation requested from the very start
(the flag is set before and after the handshake succeeds), resumeSession
still sends session/load and completes the attempt to the connected
state — its body contains no cancellation checks. -/
theorem cancellation_resume_counterexample :
    abortedResumeEnv.abortFrom = some 0 ∧
    (resumeSessionM abortedResumeEnv sampleSaved emptyStore).sent =
      ["initialize", "session/load"] ∧
    (resumeSessionM abortedResumeEnv sampleSaved emptyStore).state.isConnected = true := by
  refine ⟨rfl, ?_, ?_⟩ <;> rfl

/-- C5 (amended): createSession checks the cancellation flag after spawn,
after client creation, twice after the handshake and around
authentication — a flag seen by the first post-handshake checks (set
after initialize succeeded, before establishment) makes the attempt fail
with "Connection cancelled", never sending session/new and tearing the
client down.  resumeSession reads the flag nowhere (its result is
identical for every flag value), and createSession has no check after the
final session/new succeeds, so cancellation set at those points does not
prevent the attempt from completing. -/
theorem cancellation_short_circuit :
    (∀ (env : CreateEnv) (a c : String) (st0 : SessionStoreState) (i : InitRespM) (k : Nat),
      env.spawn = .ok () →
      env.initResult = .ok i →
      env.abortFrom = some k →
      2 ≤ k → k ≤ 3 →
      (createSessionM env a c st0).outcome = .error "Connection cancelled" ∧
      "session/new" ∉ (createSessionM env a c st0).sent ∧
      (createSessionM env a c st0).state.clientAlive = false ∧
      (createSessionM env a c st0).state.isConnected = st0.isConnected) ∧
    (∀ (env : ResumeEnv) (ab : Option Nat) (saved : SavedSession) (st0 : SessionStoreState),
      resumeSessionM { env with abortFrom := ab } saved st0 = resumeSessionM env saved st0) ∧
    (∀ (env : CreateEnv) (a c : String) (st0 : SessionStoreState) (i : InitRespM)
        (resp : SessResp) (k : Nat),
      env.spawn = .ok () →
      env.initResult = .ok i →
      env.firstNew = .ok resp →
      env.saveStore = .ok () →
      env.abortFrom = some k →
      4 ≤ k →
      (createSessionM env a c st0).outcome = .ok () ∧
      (createSessionM env a c st0).state.isConnected = true) := by
  refine ⟨?_, ?_, ?_⟩
  · intro env a c st0 i k hsp hinit hab h2 h3
    interval_cases k <;>
      simp [createSessionM, hsp, hinit, hab, abortAt, failCreate]
  · intro env ab saved st0
    rcases env with ⟨sp, ir, fl, cm, ar, sl, sv, ab0, now0⟩
    rfl
  · intro env a c st0 i resp k hsp hinit hfirst hsave hab h4
    have e0 : abortAt env.abortFrom 0 = false := by
      rw [hab]; simp [abortAt]; omega
    have e1 : abortAt env.abortFrom 1 = false := by
      rw [hab]; simp [abortAt]; omega
    have e2 : abortAt env.abortFrom 2 = false := by
      rw [hab]; simp [abortAt]; omega
    have e3 : abortAt env.abortFrom 3 = false := by
      rw [hab]; simp [abortAt]; omega
    simp [createSessionM, hsp, hinit, hfirst, hsave, e0, e1, e2, e3, establishCreate]

/-- Witness for C5 (amended) at a concrete cancelled create run. -/
theorem cancellation_short_circuit_witness :
    (createSessionM abortedCreateEnv "copilot" "/w" emptyStore).outcome =
      .error "Connection cancelled" ∧
    "session/new" ∉ (createSessionM abortedCreateEnv "copilot" "/w" emptyStore).sent := by
  have h := cancellation_short_circuit.1 abortedCreateEnv "copilot" "/w" emptyStore
    ⟨false, []⟩ 2 rfl rfl rfl (by decide) (by decide)
  exact ⟨h.1, h.2.1⟩

theorem createSessionM_transcript (env : CreateEnv) (a c : String)
    (st0 : SessionStoreState) :
    (createSessionM env a c st0).outcome = .ok () ∨
    ((createSessionM env a c st0).state.messages = st0.messages ∧
     (createSessionM env a c st0).state.toolCalls = st0.toolCalls ∧
     (createSessionM env a c st0).state.isConnected = st0.isConnected) := by
  unfold createSessionM establishCreate
  repeat' split
  all_goals first
    | (left; rfl)
    | (right; exact ⟨rfl, rfl, rfl⟩)

theorem createSessionM_session_saved (env : CreateEnv) (a c : String)
    (st0 : SessionStoreState) (hsave : env.saveStore = .ok ()) :
    (createSessionM env a c st0).outcome = .ok () ∨
    ((createSessionM env a c st0).state.currentSession = st0.currentSession ∧
     (createSessionM env a c st0).state.savedSessions = st0.savedSessions) := by
  simp only [createSessionM, establishCreate, hsave]
  repeat' split
  all_goals first
    | (left; rfl)
    | (right; exact ⟨rfl, rfl⟩)

theorem resumeSessionM_session_saved (env : ResumeEnv) (saved : SavedSession)
    (st0 : SessionStoreState) (hsave : env.saveStore = .ok ()) :
    (resumeSessionM env saved st0).outcome = .ok () ∨
    ((resumeSessionM env saved st0).state.currentSession = st0.currentSession ∧
     (resumeSessionM env saved st0).state.savedSessions = st0.savedSessions) := by
  simp only [resumeSessionM, resumeEstablish, hsave]
  repeat' split
  all_goals first
    | (left; rfl)
    | (right; exact ⟨rfl, rfl⟩)

theorem resumeSessionM_transcript (env : ResumeEnv) (saved : SavedSession)
    (st0 : SessionStoreState) :
    (resumeSessionM env saved st0).outcome = .ok () ∨
    ((resumeSessionM env saved st0).state.messages = st0.messages ∧
     (resumeSessionM env saved st0).state.toolCalls = st0.toolCalls) ∨
    ((resumeSessionM env saved st0).state.messages = [] ∧
     (resumeSessionM env saved st0).state.toolCalls = []) := by
  unfold resumeSessionM resumeEstablish
  repeat' split
  all_goals first
    | (left; rfl)
    | (right; exact Or.inl ⟨rfl, rfl⟩)
    | (right; exact Or.inr ⟨rfl, rfl⟩)

theorem resumeSessionM_after_init (env : ResumeEnv) (saved : SavedSession)
    (st0 : SessionStoreState) (i : InitRespM)
    (hsp : env.spawn = .ok ()) (hinit : env.initResult = .ok i) :
    (resumeSessionM env saved st0).outcome = .ok () ∨
    ((resumeSessionM env saved st0).state.messages = [] ∧
     (resumeSessionM env saved st0).state.toolCalls = []) := by
  simp only [resumeSessionM, resumeEstablish, hsp, hinit]
  repeat' split
  all_goals first
    | (left; rfl)
    | (right; exact ⟨rfl, rfl⟩)

/-- C6 (amended): when createSession fails, the transcript (messages and
the tool-call table) is always exactly as before the call, and the
current Session entity and saved-session list are unchanged unless the
failure is the final session-store save, which rejects only after the
session has been populated and appended — the caller then sees the
failure with the session set and the list extended.  When resumeSession
fails, the Session entity and saved-session list are unchanged except in
the same final-save case (where the session is already set and the
connected flag already raised), and the transcript is unchanged only
when the failure precedes the handshake's completion — once session/load
is attempted the transcript and tool-call table have already been
cleared, and the failing resume leaves them cleared. -/
theorem session_failure_atomicity :
    (∀ (env : CreateEnv) (a c : String) (st0 : SessionStoreState) (e : String),
      (createSessionM env a c st0).outcome = .error e →
      (createSessionM env a c st0).state.messages = st0.messages ∧
      (createSessionM env a c st0).state.toolCalls = st0.toolCalls ∧
      (createSessionM env a c st0).state.isConnected = st0.isConnected) ∧
    (∀ (env : CreateEnv) (a c : String) (st0 : SessionStoreState) (e : String),
      (createSessionM env a c st0).outcome = .error e →
      env.saveStore = .ok () →
      (createSessionM env a c st0).state.currentSession = st0.currentSession ∧
      (createSessionM env a c st0).state.savedSessions = st0.savedSessions) ∧
    (∀ (env : CreateEnv) (a c : String) (st0 : SessionStoreState) (i : InitRespM)
        (resp : SessResp) (e₂ : String),
      env.abortFrom = none →
      env.spawn = .ok () →
      env.initResult = .ok i →
      env.firstNew = .ok resp →
      env.saveStore = .error e₂ →
      (createSessionM env a c st0).outcome = .error e₂ ∧
      (createSessionM env a c st0).state.currentSession =
        some (newSavedSession env a c i.loadSession resp) ∧
      (createSessionM env a c st0).state.savedSessions =
        st0.savedSessions ++ [newSavedSession env a c i.loadSession resp] ∧
      (createSessionM env a c st0).state.messages = st0.messages ∧
      (createSessionM env a c st0).state.isConnected = st0.isConnected) ∧
    (∀ (env : ResumeEnv) (saved : SavedSession) (st0 : SessionStoreState) (e : String),
      (resumeSessionM env saved st0).outcome = .error e →
      env.saveStore = .ok () →
      (resumeSessionM env saved st0).state.currentSession = st0.currentSession ∧
      (resumeSessionM env saved st0).state.savedSessions = st0.savedSessions) ∧
    (∀ (env : ResumeEnv) (saved : SavedSession) (st0 : SessionStoreState) (e : String),
      (resumeSessionM env saved st0).outcome = .error e →
      ((resumeSessionM env saved st0).state.messages = st0.messages ∧
        (resumeSessionM env saved st0).state.toolCalls = st0.toolCalls) ∨
      ((resumeSessionM env saved st0).state.messages = [] ∧
        (resumeSessionM env saved st0).state.toolCalls = [])) ∧
    (∀ (env : ResumeEnv) (saved : SavedSession) (st0 : SessionStoreState) (i : InitRespM)
        (e : String),
      env.spawn = .ok () → env.initResult = .ok i →
      (resumeSessionM env saved st0).outcome = .error e →
      (resumeSessionM env saved st0).state.messages = [] ∧
      (resumeSessionM env saved st0).state.toolCalls = []) ∧
    (∀ (env : ResumeEnv) (saved : SavedSession) (st0 : SessionStoreState) (i : InitRespM)
        (e₂ : String),
      env.spawn = .ok () →
      env.initResult = .ok i →
      env.firstLoad = .ok () →
      env.saveStore = .error e₂ →
      (resumeSessionM env saved st0).outcome = .error e₂ ∧
      (resumeSessionM env saved st0).state.currentSession =
        some { saved with lastUpdated := env.now } ∧
      (resumeSessionM env saved st0).state.isConnected = true ∧
      (resumeSessionM env saved st0).state.messages = []) := by
  refine ⟨?_, ?_, ?_, ?_, ?_, ?_, ?_⟩
  · intro env a c st0 e h
    rcases createSessionM_transcript env a c st0 with hok | hfields
    · rw [hok] at h
      simp at h
    · exact hfields
  · intro env a c st0 e h hsave
    rcases createSessionM_session_saved env a c st0 hsave with hok | hfields
    · rw [hok] at h
      simp at h
    · exact hfields
  · intro env a c st0 i resp e₂ hab hsp hinit hfirst hsave
    simp [createSessionM, hab, abortAt, hsp, hinit, hfirst, hsave, establishCreate, failCreate]
  · intro env saved st0 e h hsave
    rcases resumeSessionM_session_saved env saved st0 hsave with hok | hfields
    · rw [hok] at h
      simp at h
    · exact hfields
  · intro env saved st0 e h
    rcases resumeSessionM_transcript env saved st0 with hok | hfields
    · rw [hok] at h
      simp at h
    · exact hfields
  · intro env saved st0 i e hsp hinit h
    rcases resumeSessionM_after_init env saved st0 i hsp hinit with hok | hfields
    · rw [hok] at h
      simp at h
    · exact hfields
  · intro env saved st0 i e₂ hsp hinit hload hsave
    simp [resumeSessionM, hsp, hinit, hload, hsave, resumeEstablish, failResume]

/-- C6 counterexample: resumeSession clears the transcript before issuing
session/load, so when session/load fails with a non-auth error the
operation rejects while the previously non-empty transcript has been
emptied — an observable state in which the operation failed yet the
transcript was modified. -/
theorem resume_clears_transcript_on_failure :
    storeWithTranscript.messages ≠ [] ∧
    (resumeSessionM failingResumeEnv sampleSaved storeWithTranscript).outcome =
      .error "load failed" ∧
    (resumeSessionM failingResumeEnv sampleSaved storeWithTranscript).state.messages = [] := by
  refine ⟨?_, ?_, ?_⟩ <;> first | decide | rfl

/-- Witness for C6 (amended) at a concrete failing spawn. -/
theorem session_failure_atomicity_witness :
    (createSessionM spawnFailCreateEnv "copilot" "/w" storeWithTranscript).state.messages =
      storeWithTranscript.messages ∧
    (createSessionM spawnFailCreateEnv "copilot" "/w" storeWithTranscript).state.currentSession =
      storeWithTranscript.currentSession := by
  have ha := session_failure_atomicity.1 spawnFailCreateEnv "copilot" "/w" storeWithTranscript
    "spawn failed" rfl
  have hb := session_failure_atomicity.2.1 spawnFailCreateEnv "copilot" "/w" storeWithTranscript
    "spawn failed" rfl rfl
  exact ⟨ha.1, hb.1⟩

end AcpUi
